import Mathlib

/-!
Shallow embedding of the pi-system-theme extension (TypeScript) for
verification of its specification. The repository carries several
revisions of `index.ts`; definitions below are namespaced per revision
where the revisions differ:

* top level / `P1` — the most complete revision (src/unnamed/part_001):
  multi-platform detection, `shouldAutoSync` gating, `lastSetThemeError`
  warning de-duplication, `getOverrides`/`saveConfig` persistence;
* `RevB` — the second revision embedded in src/index.ts:
  `mergeConfig` via `toNonEmptyString`/`toPositiveInteger`,
  `resolveThemeName` fallback resolution, set-keyed
  `warnSetThemeFailureOnce`, `lastAppliedThemeName` memory.

JavaScript values relevant to config parsing are modelled by `JSValue`
(numbers as rationals plus NaN/±Infinity); external command invocations
by `ExecResult`; file-system effects by `FsOp`.
-/

set_option maxRecDepth 10000

/-- OS appearance as detected: the TS union type "dark" | "light".
Undetermined detection is modelled as `Option Appearance = none`. -/
inductive Appearance where
  | dark
  | light
deriving DecidableEq, Repr

/-- A JavaScript number: finite (as a rational), NaN, or an infinity. -/
inductive JSNum where
  | finite (x : ℚ)
  | nan
  | posInf
  | negInf
deriving DecidableEq, Repr

/-- A JavaScript value as far as the config-parsing code inspects it. -/
inductive JSValue where
  | undef
  | null
  | str (s : String)
  | num (n : JSNum)
  | bool (b : Bool)
  | obj
deriving DecidableEq, Repr

/-- JavaScript Math.round: round half toward positive infinity. -/
def jsRound (x : ℚ) : ℤ := ⌊x + 1 / 2⌋

/-- The JS nullish coalescing operator `a ?? b` on optional strings. -/
def jsNullish (a b : Option String) : Option String :=
  match a with
  | some n => some n
  | none => b

/-- JavaScript String.prototype.trim, as a structurally recursive model:
drop whitespace from both ends. -/
def jsTrim (s : String) : String :=
  ⟨((s.data.dropWhile Char.isWhitespace).reverse.dropWhile Char.isWhitespace).reverse⟩

/-- JavaScript String.prototype.toLowerCase (ASCII case folding). -/
def jsToLower (s : String) : String := ⟨s.data.map Char.toLower⟩

/-- JavaScript String.prototype.startsWith. -/
def jsStartsWith (s pre : String) : Bool := pre.data.isPrefixOf s.data

/-- JavaScript String.prototype.endsWith. -/
def jsEndsWith (s suf : String) : Bool := suf.data.reverse.isPrefixOf s.data.reverse

/-- Substring test on character lists, structurally recursive. -/
def containsSub (l pat : List Char) : Bool :=
  if pat.isPrefixOf l then true
  else
    match l with
    | [] => false
    | _ :: t => containsSub t pat

/-- JavaScript String.prototype.includes: substring containment. -/
def jsIncludes (s pat : String) : Bool := containsSub s.data pat.data

/-- String.prototype.slice(1, -1): drop the first and last characters. -/
def jsSliceInner (s : String) : String := ⟨(s.data.drop 1).dropLast⟩

/-- The extension configuration: `type Config` in index.ts. -/
structure Config where
  darkTheme : String
  lightTheme : String
  pollMs : ℤ
deriving DecidableEq, Repr

/-- DEFAULT_CONFIG in index.ts. -/
def DEFAULT_CONFIG : Config := { darkTheme := "dark", lightTheme := "light", pollMs := 2000 }

/-- MIN_POLL_MS in index.ts. -/
def MIN_POLL_MS : ℤ := 500

/-- A thrown error value, as far as `extractStderr` inspects it: either a
non-object, or an object whose `stderr` field is a string or absent. -/
inductive JsError where
  | obj (stderr : Option String)
  | nonObj
deriving DecidableEq, Repr

/-- Result of `execFileAsync`: resolved with captured stdout, or rejected
with an error value. -/
inductive ExecResult where
  | ok (stdout : String)
  | err (e : JsError)
deriving DecidableEq, Repr

/-- extractStderr: the `stderr` field of the error if it is a string,
otherwise the empty string. -/
def extractStderr : JsError → String
  | .obj (some s) => s
  | .obj none => ""
  | .nonObj => ""

/-- A single-quote character, used by gsettings output quoting. -/
def squote : String := String.singleton '\''

/-- normalizeSettingValue (part_001): trim, lowercase, and strip one pair
of surrounding single or double quotes. -/
def normalizeSettingValue (value : String) : String :=
  let trimmed := jsToLower (jsTrim value)
  if (jsStartsWith trimmed squote && jsEndsWith trimmed squote)
      || (jsStartsWith trimmed "\"" && jsEndsWith trimmed "\"") then
    jsSliceInner trimmed
  else
    trimmed

/-- parseMacAppearance (part_001). -/
def parseMacAppearance (value : String) : Option Appearance :=
  if value = "dark" then some .dark
  else if value = "light" then some .light
  else none

/-- parseGnomeColorScheme (part_001); the argument is `string | null`. -/
def parseGnomeColorScheme (value : Option String) : Option Appearance :=
  if value = some "prefer-dark" then some .dark
  else if value = some "prefer-light" then some .light
  else none

/-- parseGtkThemeAppearance (part_001); `!value` is JS-falsy, so both
null and the empty string map to null. -/
def parseGtkThemeAppearance (value : Option String) : Option Appearance :=
  match value with
  | none => none
  | some s =>
    if s = "" then none
    else if jsIncludes s "dark" then some .dark
    else if jsIncludes s "light" then some .light
    else none

/-- readGnomeInterfaceSetting (part_001): normalized stdout on success,
null on any command failure. -/
def readGnomeInterfaceSetting (r : ExecResult) : Option String :=
  match r with
  | .ok stdout => some (normalizeSettingValue stdout)
  | .err _ => none

/-- detectMacAppearance (part_001): parse normalized stdout; on failure,
a stderr mentioning "does not exist" means the appearance key is absent,
i.e. light mode; any other failure is undetermined. -/
def detectMacAppearance (r : ExecResult) : Option Appearance :=
  match r with
  | .ok stdout => parseMacAppearance (normalizeSettingValue stdout)
  | .err e =>
    if jsIncludes (jsToLower (extractStderr e)) "does not exist" then some .light
    else none

/-- detectLinuxAppearance (part_001), with the ordered list of gsettings
keys actually queried made explicit. `cs` is the result of the
color-scheme query; `gtk` the result of the gtk-theme query, used only
when the first is inconclusive. -/
def detectLinuxAppearance (cs gtk : ExecResult) : Option Appearance × List String :=
  match parseGnomeColorScheme (readGnomeInterfaceSetting cs) with
  | some a => (some a, ["color-scheme"])
  | none => (parseGtkThemeAppearance (readGnomeInterfaceSetting gtk), ["color-scheme", "gtk-theme"])

/-- toThemeName (first revision of index.ts, and part_001): keep a string
whose trim is non-empty, else the fallback. -/
def toThemeName (value : JSValue) (fallback : String) : String :=
  match value with
  | .str s =>
    let trimmed := jsTrim s
    if trimmed.length > 0 then trimmed else fallback
  | _ => fallback

/-- toPollMs (first revision of index.ts, and part_001): a finite number
is rounded and clamped to at least MIN_POLL_MS; anything else falls back. -/
def toPollMs (value : JSValue) (fallback : ℤ) : ℤ :=
  match value with
  | .num (.finite x) => max MIN_POLL_MS (jsRound x)
  | _ => fallback

/-- The raw override object as read from disk: each field is an arbitrary
JS value (absent fields read as undefined). -/
structure RawConfig where
  darkTheme : JSValue
  lightTheme : JSValue
  pollMs : JSValue
deriving DecidableEq, Repr

/-- The field-by-field merge performed by `loadConfig` in the first
revision of index.ts: start from defaults and update each field through
`toThemeName` / `toPollMs` with the default as fallback. -/
def loadConfigMerge (raw : RawConfig) : Config :=
  { darkTheme := toThemeName raw.darkTheme DEFAULT_CONFIG.darkTheme
    lightTheme := toThemeName raw.lightTheme DEFAULT_CONFIG.lightTheme
    pollMs := toPollMs raw.pollMs DEFAULT_CONFIG.pollMs }

namespace RevB

/-- toNonEmptyString (second revision of index.ts). -/
def toNonEmptyString (value : JSValue) : Option String :=
  match value with
  | .str s =>
    let trimmed := jsTrim s
    if trimmed.length > 0 then some trimmed else none
  | _ => none

/-- toPositiveInteger (second revision of index.ts): round a finite
number; keep it only when strictly positive. -/
def toPositiveInteger (value : JSValue) : Option ℤ :=
  match value with
  | .num (.finite x) =>
    let rounded := jsRound x
    if rounded > 0 then some rounded else none
  | _ => none

/-- mergeConfig (second revision of index.ts). A `toPositiveInteger`
result is a positive integer, hence always JS-truthy, so the source's
truthiness test coincides with presence. -/
def mergeConfig (base : Config) (rawConfig : Option RawConfig) : Config :=
  match rawConfig with
  | none => base
  | some raw =>
    { darkTheme := (toNonEmptyString raw.darkTheme).getD base.darkTheme
      lightTheme := (toNonEmptyString raw.lightTheme).getD base.lightTheme
      pollMs :=
        match toPositiveInteger raw.pollMs with
        | some v => max v MIN_POLL_MS
        | none => base.pollMs }

end RevB

/-- Value of one persisted override field. -/
inductive OverrideValue where
  | str (s : String)
  | num (n : ℤ)
deriving DecidableEq, Repr

/-- getOverrides (index.ts and part_001): the fields differing from
DEFAULT_CONFIG, in object-insertion order darkTheme, lightTheme, pollMs. -/
def getOverrides (config : Config) : List (String × OverrideValue) :=
  (if config.darkTheme ≠ DEFAULT_CONFIG.darkTheme
    then [("darkTheme", OverrideValue.str config.darkTheme)] else []) ++
  (if config.lightTheme ≠ DEFAULT_CONFIG.lightTheme
    then [("lightTheme", OverrideValue.str config.lightTheme)] else []) ++
  (if config.pollMs ≠ DEFAULT_CONFIG.pollMs
    then [("pollMs", OverrideValue.num config.pollMs)] else [])

/-- Lowercase hexadecimal digit, as produced by JSON escape sequences. -/
def hexDigitChar (n : Nat) : Char :=
  if n < 10 then Char.ofNat (48 + n) else Char.ofNat (87 + n)

/-- Four-digit lowercase hexadecimal rendering for a JSON \u escape. -/
def hex4 (n : Nat) : String :=
  String.mk [hexDigitChar (n / 4096 % 16), hexDigitChar (n / 256 % 16),
    hexDigitChar (n / 16 % 16), hexDigitChar (n % 16)]

/-- JSON.stringify escaping of a single character inside a string. -/
def jsonEscapeChar (c : Char) : String :=
  if c = '"' then "\\\""
  else if c = '\\' then "\\\\"
  else if c = '\n' then "\\n"
  else if c = '\r' then "\\r"
  else if c = '\t' then "\\t"
  else if c.toNat = 8 then "\\b"
  else if c.toNat = 12 then "\\f"
  else if c.toNat < 32 then "\\u" ++ hex4 c.toNat
  else String.singleton c

/-- Concatenation of a list of strings. -/
def concatAll (parts : List String) : String := parts.foldl (· ++ ·) ""

/-- Concatenation with a separator between consecutive parts. -/
def joinSep (sep : String) : List String → String
  | [] => ""
  | [p] => p
  | p :: rest => p ++ sep ++ joinSep sep rest

/-- JSON.stringify rendering of a string. -/
def jsonEscapeString (s : String) : String :=
  "\"" ++ concatAll (s.data.map jsonEscapeChar) ++ "\""

/-- JSON.stringify rendering of an override value. -/
def renderOverrideValue : OverrideValue → String
  | .str s => jsonEscapeString s
  | .num n => toString n

/-- JSON.stringify(overrides, null, 4) for a non-empty override object:
each entry on its own line indented four spaces, separated by commas. -/
def renderOverrides (entries : List (String × OverrideValue)) : String :=
  "\x7b\n"
    ++ joinSep ",\n"
      (entries.map fun e => "    " ++ jsonEscapeString e.1 ++ ": " ++ renderOverrideValue e.2)
    ++ "\n\x7d"

/-- The file-system effect performed by saveConfig. -/
inductive FsOp where
  | deleteFile
  | writeFile (content : String)
deriving DecidableEq, Repr

/-- The value resolved by saveConfig. -/
structure SaveResult where
  wroteFile : Bool
  overrideCount : Nat
deriving DecidableEq, Repr

/-- saveConfig (index.ts and part_001): no overrides means delete the
file (rm with force); otherwise write the pretty-printed overrides
followed by a newline. -/
def saveConfig (config : Config) : FsOp × SaveResult :=
  let overrides := getOverrides config
  let overrideCount := overrides.length
  if overrideCount = 0 then
    (.deleteFile, { wroteFile := false, overrideCount := overrideCount })
  else
    (.writeFile (renderOverrides overrides ++ "\n"),
     { wroteFile := true, overrideCount := overrideCount })

/-- Effect of a saveConfig file-system operation on the override file
contents (`none` = file absent). `rm` with `force: true` succeeds also
when the file is already absent. -/
def applyFsOp : FsOp → Option String → Option String
  | .deleteFile, _ => none
  | .writeFile content, _ => some content

/-- Accumulate the numeric value of a run of leading decimal digits. -/
def decDigitsValue (cs : List Char) : Nat :=
  cs.foldl (fun acc d => acc * 10 + (d.toNat - 48)) 0

/-- Number.parseInt(s, 10): optional sign, then at least one leading
decimal digit (trailing garbage ignored); NaN (here: none) otherwise. -/
def parseIntBase10 (s : String) : Option ℤ :=
  match s.data with
  | [] => none
  | c :: cs =>
    let signAndRest : ℤ × List Char :=
      if c = '-' then (-1, cs) else if c = '+' then (1, cs) else (1, c :: cs)
    let digits := signAndRest.2.takeWhile Char.isDigit
    if digits.isEmpty then none
    else some (signAndRest.1 * (decDigitsValue digits : ℤ))

/-- One entry in the prompt input stream: `none` is a cancelled prompt
(ctx.ui.input resolved undefined), `some s` is the text entered. -/
def PromptInput := Option String

/-- promptPollMs (index.ts and part_001): loop over the user's inputs;
cancel returns undefined, blank keeps the current value, a parsed integer
of at least MIN_POLL_MS is accepted, anything else warns and re-prompts.
The loop is modelled over the finite stream of inputs the user will
provide; an exhausted stream means the user never completed the prompt. -/
def promptPollMs (currentValue : ℤ) : List PromptInput → Option ℤ
  | [] => none
  | none :: _ => none
  | some next :: rest =>
    let trimmed := jsTrim next
    if trimmed.length = 0 then some currentValue
    else
      match parseIntBase10 trimmed with
      | some parsed => if parsed ≥ MIN_POLL_MS then some parsed else promptPollMs currentValue rest
      | none => promptPollMs currentValue rest

/-- Modelled from the spec: the Windows registry query for the
appearance setting is absent from the source revisions (only the test
suite exercises it); per the spec it queries the value
`AppsUseLightTheme` under the personalization key. -/
def windowsRegistryQuery : String × List String :=
  ("reg",
   ["query", "HKCU\\Software\\Microsoft\\Windows\\CurrentVersion\\Themes\\Personalize",
    "/v", "AppsUseLightTheme"])

/-- Value of a run of leading hexadecimal digits, `none` when empty. -/
def parseHexPrefix (cs : List Char) : Option Nat :=
  let digits := cs.takeWhile fun c =>
    c.isDigit || (97 ≤ c.toNat && c.toNat ≤ 102) || (65 ≤ c.toNat && c.toNat ≤ 70)
  if digits.isEmpty then none
  else some (digits.foldl (fun acc d =>
    acc * 16 + (if d.isDigit then d.toNat - 48
      else if d.toNat ≥ 97 then d.toNat - 87 else d.toNat - 55)) 0)

/-- Characters after the first occurrence of the marker `0x`, if any. -/
def afterHexMarker : List Char → Option (List Char)
  | [] => none
  | '0' :: 'x' :: rest => some rest
  | _ :: rest => afterHexMarker rest

/-- Modelled from the spec: parse the hexadecimal dword from the registry
query output text — the hex digits following the first `0x`. -/
def parseHexDword (stdout : String) : Option Nat :=
  match afterHexMarker stdout.data with
  | some rest => parseHexPrefix rest
  | none => none

/-- Modelled from the spec: Windows appearance detection, absent from the
source revisions. A dword of 0x0 means dark, any nonzero value light;
a failed command is undetermined. -/
def detectWindowsAppearance (r : ExecResult) : Option Appearance :=
  match r with
  | .err _ => none
  | .ok stdout =>
    match parseHexDword stdout with
    | none => none
    | some 0 => some .dark
    | some _ => some .light

/-- Host-visible theme state, as read by part_001: UI availability,
the registered theme names, and the active theme name (possibly absent). -/
structure HostState where
  hasUI : Bool
  themes : List String
  activeTheme : Option String
deriving DecidableEq, Repr

/-- canManageThemes (index.ts and part_001). -/
def canManageThemes (h : HostState) : Bool :=
  h.hasUI && h.themes.length != 0

/-- hasThemeOverrides (part_001). -/
def hasThemeOverrides (config : Config) : Bool :=
  config.darkTheme != DEFAULT_CONFIG.darkTheme || config.lightTheme != DEFAULT_CONFIG.lightTheme

/-- isDefaultThemeName (part_001). -/
def isDefaultThemeName (themeName : Option String) : Bool :=
  themeName == some DEFAULT_CONFIG.darkTheme || themeName == some DEFAULT_CONFIG.lightTheme

/-- shouldAutoSync (part_001). -/
def shouldAutoSync (ctx : HostState) (config : Config) : Bool :=
  if !canManageThemes ctx then false
  else if hasThemeOverrides config then true
  else isDefaultThemeName ctx.activeTheme

/-- Result of one host setTheme call. -/
structure SetResult where
  success : Bool
  error : Option String
deriving DecidableEq, Repr

/-- Environment of one sync pass: what detection would report if
invoked, and what a setTheme call on the target would return. -/
structure TickInput where
  detection : Option Appearance
  setResult : SetResult
deriving DecidableEq, Repr

/-- Mutable state threaded through part_001 sync passes: the host theme
state and the `lastSetThemeError` de-duplication key. -/
structure SyncState where
  host : HostState
  lastSetThemeError : Option String
deriving DecidableEq, Repr

/-- Observable trace of one part_001 sync pass: whether detection ran,
the setTheme calls made, and the (theme, message) warnings logged. -/
structure SyncPassOutcome where
  detectInvoked : Bool
  setCalls : List String
  warnings : List (String × String)
deriving DecidableEq, Repr

/-- syncTheme (part_001), one pass as a pure state transformer. The
reentrancy flag is identically false on this single-timeline model (it
is set and cleared within one pass). A successful setTheme updates the
host's active theme; a failure leaves it unchanged. -/
def syncTheme (config : Config) (s : SyncState) (t : TickInput) : SyncState × SyncPassOutcome :=
  if !shouldAutoSync s.host config then
    (s, { detectInvoked := false, setCalls := [], warnings := [] })
  else
    match t.detection with
    | none => (s, { detectInvoked := true, setCalls := [], warnings := [] })
    | some appearance =>
      let targetTheme := if appearance = .dark then config.darkTheme else config.lightTheme
      if s.host.activeTheme = some targetTheme then
        (s, { detectInvoked := true, setCalls := [], warnings := [] })
      else
        let result := t.setResult
        if result.success then
          ({ host := { s.host with activeTheme := some targetTheme }, lastSetThemeError := none },
           { detectInvoked := true, setCalls := [targetTheme], warnings := [] })
        else
          let message := result.error.getD "unknown error"
          let errorKey := targetTheme ++ ":" ++ message
          if some errorKey ≠ s.lastSetThemeError then
            ({ s with lastSetThemeError := some errorKey },
             { detectInvoked := true, setCalls := [targetTheme],
               warnings := [(targetTheme, message)] })
          else
            (s, { detectInvoked := true, setCalls := [targetTheme], warnings := [] })

/-- A session: fold syncTheme over a sequence of poll ticks, collecting
each pass's outcome. -/
def syncSession (config : Config) (s : SyncState) :
    List TickInput → SyncState × List SyncPassOutcome
  | [] => (s, [])
  | t :: ts =>
    let step := syncTheme config s t
    let rest := syncSession config step.1 ts
    (rest.1, step.2 :: rest.2)

/-- All (theme, message) warnings a session logs, in order. -/
def sessionWarnings (config : Config) (s : SyncState) (ticks : List TickInput) :
    List (String × String) :=
  ((syncSession config s ticks).2.map SyncPassOutcome.warnings).flatten

namespace RevB

/-- getRequestedTheme (second revision of index.ts). -/
def getRequestedTheme (config : Config) (appearance : Appearance) : String :=
  if appearance = .dark then config.darkTheme else config.lightTheme

/-- getBuiltinFallbackTheme (second revision of index.ts). -/
def getBuiltinFallbackTheme (appearance : Appearance) : String :=
  if appearance = .dark then "dark" else "light"

/-- resolveThemeName (second revision of index.ts). `knownThemes` models
which names `ctx.ui.getTheme` resolves; the returned triple is the chosen
theme, the updated warned-pairs set, and whether a warning was logged on
this call. -/
def resolveThemeName (knownThemes : List String) (requestedTheme fallbackTheme : String)
    (warnedMissingThemes : List String) : String × List String × Bool :=
  if knownThemes.contains requestedTheme then
    (requestedTheme, warnedMissingThemes, false)
  else
    let warningKey := requestedTheme ++ "=>" ++ fallbackTheme
    let step : List String × Bool :=
      if warnedMissingThemes.contains warningKey then (warnedMissingThemes, false)
      else (warningKey :: warnedMissingThemes, true)
    if knownThemes.contains fallbackTheme then
      (fallbackTheme, step.1, step.2)
    else
      (requestedTheme, step.1, step.2)

/-- warnSetThemeFailureOnce (second revision of index.ts): log the
(theme, message) warning unless the key was already recorded. -/
def warnSetThemeFailureOnce (warningKey : String) (warnings : List String)
    (themeName errorMessage : String) : List String × List (String × String) :=
  if warnings.contains warningKey then (warnings, [])
  else (warningKey :: warnings, [(themeName, errorMessage)])

/-- Host state as read by the second revision's syncTheme: the active
theme name (possibly absent) and the registered theme names. -/
structure HostB where
  themeName : Option String
  knownThemes : List String
deriving DecidableEq, Repr

/-- Mutable engine state of the second revision: the remembered
last-applied theme name and the two warning key sets. -/
structure StateB where
  lastAppliedThemeName : Option String
  missingThemeWarnings : List String
  setThemeWarnings : List String
deriving DecidableEq, Repr

/-- Environment of one second-revision sync pass: the detection result
and the results a setTheme call would return on the resolved target and,
if attempted, on the builtin fallback. -/
structure TickB where
  detection : Option Appearance
  setResultTarget : SetResult
  setResultFallback : SetResult
deriving DecidableEq, Repr

/-- Observable trace of one second-revision sync pass. -/
structure OutB where
  setCalls : List String
  warnings : List (String × String)
deriving DecidableEq, Repr

/-- syncTheme (second revision of index.ts) as a pure state transformer;
the reentrancy flag is identically false on this single-timeline model.
`h.themeName ?? lastAppliedThemeName` is the JS nullish coalescing. -/
def syncTheme (h : HostB) (config : Config) (st : StateB) (t : TickB) : StateB × OutB :=
  match t.detection with
  | none => (st, { setCalls := [], warnings := [] })
  | some appearance =>
    let requestedTheme := getRequestedTheme config appearance
    let fallbackTheme := getBuiltinFallbackTheme appearance
    let resolved := resolveThemeName h.knownThemes requestedTheme fallbackTheme st.missingThemeWarnings
    let targetTheme := resolved.1
    let st1 := { st with missingThemeWarnings := resolved.2.1 }
    let activeThemeName := jsNullish h.themeName st1.lastAppliedThemeName
    if activeThemeName = some targetTheme then
      ({ st1 with lastAppliedThemeName := activeThemeName }, { setCalls := [], warnings := [] })
    else
      let setResult := t.setResultTarget
      if setResult.success then
        ({ st1 with lastAppliedThemeName := some targetTheme },
         { setCalls := [targetTheme], warnings := [] })
      else
        let warn1 := warnSetThemeFailureOnce ("set:" ++ targetTheme) st1.setThemeWarnings
          targetTheme (setResult.error.getD "unknown error")
        let st2 := { st1 with setThemeWarnings := warn1.1 }
        if targetTheme = fallbackTheme then
          (st2, { setCalls := [targetTheme], warnings := warn1.2 })
        else
          let fallbackResult := t.setResultFallback
          if fallbackResult.success then
            ({ st2 with lastAppliedThemeName := some fallbackTheme },
             { setCalls := [targetTheme, fallbackTheme], warnings := warn1.2 })
          else
            let warn2 := warnSetThemeFailureOnce ("fallback:" ++ fallbackTheme) st2.setThemeWarnings
              fallbackTheme (fallbackResult.error.getD "unknown error")
            ({ st2 with setThemeWarnings := warn2.1 },
             { setCalls := [targetTheme, fallbackTheme], warnings := warn1.2 ++ warn2.2 })

end RevB

/-- C4: On macOS, detection normalizes stdout (trim, lowercase, strip
surrounding quotes) and maps "dark" to dark and "light" to light, any
other stdout to undetermined; a failure whose stderr contains
"does not exist" yields light, and every other failure undetermined. -/
theorem macDetection_mapping :
    ∀ (s : String) (e : JsError),
      detectMacAppearance (.ok s) =
        (if normalizeSettingValue s = "dark" then some .dark
         else if normalizeSettingValue s = "light" then some .light
         else none) ∧
      detectMacAppearance (.err e) =
        (if jsIncludes (jsToLower (extractStderr e)) "does not exist" then some .light
         else none) ∧
      detectMacAppearance (.ok "Dark\n") = some .dark ∧
      detectMacAppearance (.ok "\"Light\"\n") = some .light ∧
      detectMacAppearance (.ok "auto\n") = none ∧
      detectMacAppearance (.err (.obj (some
        "The domain/default pair of (kCFPreferencesAnyApplication, AppleInterfaceStyle) does not exist")))
        = some .light ∧
      detectMacAppearance (.err .nonObj) = none := by
  intro s e
  refine ⟨rfl, rfl, by decide, by decide, by decide, by decide, by decide⟩

/-- C5: On Linux, detection first queries the GNOME color-scheme
preference, mapping prefer-dark/prefer-light with a single command
invoked; only when inconclusive does it query gtk-theme (two commands, in
that order), mapping a value containing "dark" to dark, "light" to light,
anything else undetermined. -/
theorem linuxDetection_mapping :
    ∀ (cs gtk : ExecResult) (g : String),
      (readGnomeInterfaceSetting cs = some "prefer-dark" →
        detectLinuxAppearance cs gtk = (some .dark, ["color-scheme"])) ∧
      (readGnomeInterfaceSetting cs = some "prefer-light" →
        detectLinuxAppearance cs gtk = (some .light, ["color-scheme"])) ∧
      (parseGnomeColorScheme (readGnomeInterfaceSetting cs) = none →
        detectLinuxAppearance cs gtk =
          (parseGtkThemeAppearance (readGnomeInterfaceSetting gtk),
           ["color-scheme", "gtk-theme"])) ∧
      parseGtkThemeAppearance (some g) =
        (if g = "" then none
         else if jsIncludes g "dark" then some .dark
         else if jsIncludes g "light" then some .light
         else none) := by
  intro cs gtk g
  refine ⟨?_, ?_, ?_, rfl⟩
  · intro h
    simp [detectLinuxAppearance, h, parseGnomeColorScheme]
  · intro h
    simp [detectLinuxAppearance, h, parseGnomeColorScheme]
  · intro h
    simp [detectLinuxAppearance, h]

/-- C5 witness: the spec's two Linux rows: color-scheme prefer-light
means light after one command; color-scheme default with gtk-theme
Adwaita-dark means dark after two commands, in that order. -/
theorem linuxDetection_mapping_witness :
    detectLinuxAppearance (.ok (squote ++ "prefer-light" ++ squote ++ "\n")) (.ok "x")
      = (some .light, ["color-scheme"]) ∧
    detectLinuxAppearance (.ok (squote ++ "default" ++ squote ++ "\n"))
        (.ok (squote ++ "Adwaita-dark" ++ squote ++ "\n"))
      = (some .dark, ["color-scheme", "gtk-theme"]) := by
  constructor
  · exact (linuxDetection_mapping (.ok (squote ++ "prefer-light" ++ squote ++ "\n"))
      (.ok "x") "").2.1 (by decide)
  · have h := (linuxDetection_mapping (.ok (squote ++ "default" ++ squote ++ "\n"))
      (.ok (squote ++ "Adwaita-dark" ++ squote ++ "\n")) "").2.2.1 (by decide)
    rw [h]
    decide

/-- C3: Windows detection (spec-modelled: no source revision implements
it; only the test suite exercises it) queries the AppsUseLightTheme
registry value, parses the hexadecimal dword from the output text, maps
0x0 to dark and any nonzero value to light; a command failure is
undetermined, and an undetermined detection makes no setTheme call. -/
theorem windowsDetection_mapping :
    ∀ (e : JsError) (s : String) (n : Nat) (c : Config) (st : SyncState) (t : TickInput),
      detectWindowsAppearance (.err e) = none ∧
      (parseHexDword s = some n →
        detectWindowsAppearance (.ok s) = if n = 0 then some .dark else some .light) ∧
      (t.detection = none → (syncTheme c st t).2.setCalls = []) ∧
      windowsRegistryQuery.2.get? 3 = some "AppsUseLightTheme" := by
  intro e s n c st t
  refine ⟨rfl, ?_, ?_, rfl⟩
  · intro hp
    cases n with
    | zero => simp [detectWindowsAppearance, hp]
    | succ m => simp [detectWindowsAppearance, hp]
  · intro hd
    unfold syncTheme
    rw [hd]
    split <;> rfl

/-- C3 witness: the test suite's registry outputs: dword 0x0 detects
dark, 0x1 detects light, a failed query is undetermined and a pass with
undetermined detection performs no setTheme call. -/
theorem windowsDetection_mapping_witness :
    detectWindowsAppearance (.ok "HKEY_CURRENT_USER\\Software\\Microsoft\\Windows\\CurrentVersion\\Themes\\Personalize\n    AppsUseLightTheme    REG_DWORD    0x0\n")
      = some .dark ∧
    detectWindowsAppearance (.ok "HKEY_CURRENT_USER\\Software\\Microsoft\\Windows\\CurrentVersion\\Themes\\Personalize\n    AppsUseLightTheme    REG_DWORD    0x1\n")
      = some .light ∧
    detectWindowsAppearance (.err (.obj none)) = none ∧
    (syncTheme DEFAULT_CONFIG ⟨⟨true, ["dark", "light"], some "dark"⟩, none⟩
      ⟨none, ⟨true, none⟩⟩).2.setCalls = [] := by
  have base := windowsDetection_mapping (.obj none)
    "HKEY_CURRENT_USER\\Software\\Microsoft\\Windows\\CurrentVersion\\Themes\\Personalize\n    AppsUseLightTheme    REG_DWORD    0x0\n"
    0 DEFAULT_CONFIG ⟨⟨true, ["dark", "light"], some "dark"⟩, none⟩ ⟨none, ⟨true, none⟩⟩
  refine ⟨?_, ?_, base.1, base.2.2.1 rfl⟩
  · have h := base.2.1 (by decide)
    simpa using h
  · have h := (windowsDetection_mapping (.obj none)
      "HKEY_CURRENT_USER\\Software\\Microsoft\\Windows\\CurrentVersion\\Themes\\Personalize\n    AppsUseLightTheme    REG_DWORD    0x1\n"
      1 DEFAULT_CONFIG ⟨⟨true, ["dark", "light"], some "dark"⟩, none⟩
      ⟨none, ⟨true, none⟩⟩).2.1 (by decide)
    simpa using h

/-- C1: With both configured theme names at their defaults and the host's
active theme neither "dark" nor "light", shouldAutoSync is false and a
sync pass invokes no detection command; with at least one non-default
configured name, shouldAutoSync is true whenever the host has UI and a
non-empty set of known themes. -/
theorem shouldAutoSync_optin_gating :
    ∀ (h : HostState) (c : Config) (lastErr : Option String) (t : TickInput),
      (c.darkTheme = "dark" → c.lightTheme = "light" →
        h.activeTheme ≠ some "dark" → h.activeTheme ≠ some "light" →
        shouldAutoSync h c = false ∧
        (syncTheme c ⟨h, lastErr⟩ t).2.detectInvoked = false) ∧
      ((c.darkTheme ≠ "dark" ∨ c.lightTheme ≠ "light") →
        h.hasUI = true → h.themes ≠ [] →
        shouldAutoSync h c = true) := by
  intro h c lastErr t
  constructor
  · intro hd hl ha1 ha2
    have hov : hasThemeOverrides c = false := by
      simp [hasThemeOverrides, DEFAULT_CONFIG, hd, hl]
    have hdef : isDefaultThemeName h.activeTheme = false := by
      simp [isDefaultThemeName, DEFAULT_CONFIG]
      exact ⟨ha1, ha2⟩
    have hs : shouldAutoSync h c = false := by
      simp [shouldAutoSync, hov, hdef]
    exact ⟨hs, by simp [syncTheme, hs]⟩
  · intro hne hui hth
    have hcan : canManageThemes h = true := by
      simp [canManageThemes, hui]
      exact hth
    have hov : hasThemeOverrides c = true := by
      rcases hne with hne | hne <;> simp [hasThemeOverrides, DEFAULT_CONFIG, hne]
    simp [shouldAutoSync, hcan, hov]

/-- C1 witness: a host on a custom theme with the default mapping is not
synced and runs no detection; configuring a non-default dark theme opts
in whenever the host has UI and themes. -/
theorem shouldAutoSync_optin_gating_witness :
    (shouldAutoSync ⟨true, ["dark", "light"], some "rose-pine"⟩ DEFAULT_CONFIG = false ∧
      (syncTheme DEFAULT_CONFIG ⟨⟨true, ["dark", "light"], some "rose-pine"⟩, none⟩
        ⟨some .dark, ⟨true, none⟩⟩).2.detectInvoked = false) ∧
    shouldAutoSync ⟨true, ["dark", "light"], some "rose-pine"⟩
      ⟨"rose-pine", "light", 2000⟩ = true := by
  constructor
  · exact (shouldAutoSync_optin_gating ⟨true, ["dark", "light"], some "rose-pine"⟩
      DEFAULT_CONFIG none ⟨some .dark, ⟨true, none⟩⟩).1 rfl rfl (by decide) (by decide)
  · exact (shouldAutoSync_optin_gating ⟨true, ["dark", "light"], some "rose-pine"⟩
      ⟨"rose-pine", "light", 2000⟩ none ⟨some .dark, ⟨true, none⟩⟩).2
      (Or.inl (by decide)) rfl (by decide)

/-- C2: When the detected appearance is dark or light and the current
active theme name (host-reported, or the engine's remembered last-applied
name when the host reports none) already equals the resolved target,
syncOnce makes zero setTheme calls. -/
theorem syncOnce_idempotent_skip :
    ∀ (h : RevB.HostB) (c : Config) (st : RevB.StateB) (t : RevB.TickB) (app : Appearance),
      t.detection = some app →
      jsNullish h.themeName st.lastAppliedThemeName =
        some (RevB.resolveThemeName h.knownThemes (RevB.getRequestedTheme c app)
          (RevB.getBuiltinFallbackTheme app) st.missingThemeWarnings).1 →
      (RevB.syncTheme h c st t).2.setCalls = [] := by
  intro h c st t app hdet hact
  unfold RevB.syncTheme
  rw [hdet]
  simp only []
  rw [hact]
  simp

/-- C2 witness: with the host already on "dark", config at defaults and a
dark detection, the pass makes no setTheme call. -/
theorem syncOnce_idempotent_skip_witness :
    jsNullish (some "dark") none =
      some (RevB.resolveThemeName ["dark", "light"] (RevB.getRequestedTheme DEFAULT_CONFIG .dark)
        (RevB.getBuiltinFallbackTheme .dark) []).1 ∧
    (RevB.syncTheme ⟨some "dark", ["dark", "light"]⟩ DEFAULT_CONFIG ⟨none, [], []⟩
      ⟨some .dark, ⟨true, none⟩, ⟨true, none⟩⟩).2.setCalls = [] := by
  constructor
  · decide
  · exact syncOnce_idempotent_skip ⟨some "dark", ["dark", "light"]⟩ DEFAULT_CONFIG
      ⟨none, [], []⟩ ⟨some .dark, ⟨true, none⟩, ⟨true, none⟩⟩ .dark rfl (by decide)

/-- C6: save computes exactly the fields differing from the defaults;
when none differ it deletes the override file (succeeding also when
absent) and reports wroteFile false with count 0; otherwise it writes
precisely the differing fields, pretty-printed with a trailing newline,
and reports wroteFile true with their count. -/
theorem saveConfig_minimal_diff :
    ∀ (config : Config) (prevFile : Option String),
      ((getOverrides config).lookup "darkTheme" =
        if config.darkTheme ≠ "dark" then some (.str config.darkTheme) else none) ∧
      ((getOverrides config).lookup "lightTheme" =
        if config.lightTheme ≠ "light" then some (.str config.lightTheme) else none) ∧
      ((getOverrides config).lookup "pollMs" =
        if config.pollMs ≠ 2000 then some (.num config.pollMs) else none) ∧
      ((getOverrides config).length =
        (if config.darkTheme ≠ "dark" then 1 else 0) +
        (if config.lightTheme ≠ "light" then 1 else 0) +
        (if config.pollMs ≠ 2000 then 1 else 0)) ∧
      (saveConfig config =
        if (getOverrides config).length = 0 then
          (.deleteFile, ⟨false, 0⟩)
        else
          (.writeFile (renderOverrides (getOverrides config) ++ "\n"),
           ⟨true, (getOverrides config).length⟩)) ∧
      applyFsOp .deleteFile prevFile = none ∧
      saveConfig ⟨"dark", "light", 2500⟩ =
        (.writeFile "\x7b\n    \"pollMs\": 2500\n\x7d\n", ⟨true, 1⟩) ∧
      saveConfig DEFAULT_CONFIG = (.deleteFile, ⟨false, 0⟩) := by
  intro config prevFile
  refine ⟨?_, ?_, ?_, ?_, ?_, rfl, by decide, by decide⟩ <;>
    by_cases h1 : config.darkTheme = "dark" <;>
    by_cases h2 : config.lightTheme = "light" <;>
    by_cases h3 : config.pollMs = 2000 <;>
    simp [getOverrides, saveConfig, DEFAULT_CONFIG, h1, h2, h3, List.lookup]

/-- C7: Every configuration produced by loading and merging the on-disk
overrides (both revisions) or by committing a settings-menu poll-interval
prompt satisfies pollMs at least MIN_POLL_MS, whatever the stored or
entered value. -/
theorem pollMs_floor_invariant :
    (∀ v : JSValue, MIN_POLL_MS ≤ toPollMs v DEFAULT_CONFIG.pollMs) ∧
    (∀ raw : Option RawConfig, MIN_POLL_MS ≤ (RevB.mergeConfig DEFAULT_CONFIG raw).pollMs) ∧
    (∀ raw : RawConfig, MIN_POLL_MS ≤ (loadConfigMerge raw).pollMs) ∧
    (∀ (currentValue : ℤ) (inputs : List PromptInput) (n : ℤ),
      MIN_POLL_MS ≤ currentValue → promptPollMs currentValue inputs = some n →
      MIN_POLL_MS ≤ n) := by
  have htp : ∀ (v : JSValue) (fb : ℤ), MIN_POLL_MS ≤ fb → MIN_POLL_MS ≤ toPollMs v fb := by
    intro v fb hfb
    cases v with
    | num m =>
      cases m with
      | finite x => exact le_max_left _ _
      | nan => exact hfb
      | posInf => exact hfb
      | negInf => exact hfb
    | undef => exact hfb
    | null => exact hfb
    | str s => exact hfb
    | bool b => exact hfb
    | obj => exact hfb
  have hdef : MIN_POLL_MS ≤ DEFAULT_CONFIG.pollMs := by decide
  refine ⟨fun v => htp v _ hdef, ?_, fun raw => htp raw.pollMs _ hdef, ?_⟩
  · intro raw
    cases raw with
    | none => exact hdef
    | some rc =>
      simp only [RevB.mergeConfig]
      cases hpi : RevB.toPositiveInteger rc.pollMs with
      | none => exact hdef
      | some v => exact le_max_right _ _
  · intro currentValue inputs
    induction inputs with
    | nil =>
      intro n hc h
      simp [promptPollMs] at h
    | cons i rest ih =>
      intro n hc h
      cases i with
      | none => simp [promptPollMs] at h
      | some next =>
        rw [promptPollMs] at h
        by_cases hlen : (jsTrim next).length = 0
        · rw [if_pos hlen] at h
          cases h
          exact hc
        · rw [if_neg hlen] at h
          cases hp : parseIntBase10 (jsTrim next) with
          | none =>
            simp only [hp] at h
            exact ih n hc h
          | some parsed =>
            simp only [hp] at h
            by_cases hge : parsed ≥ MIN_POLL_MS
            · rw [if_pos hge] at h
              cases h
              exact hge
            · rw [if_neg hge] at h
              exact ih n hc h

/-- C7 witness: entering 600 at the prompt from a compliant current value
yields 600, which satisfies the floor. -/
theorem pollMs_floor_invariant_witness :
    promptPollMs 2000 [some "600"] = some 600 ∧ MIN_POLL_MS ≤ (600 : ℤ) := by
  refine ⟨by decide, ?_⟩
  exact pollMs_floor_invariant.2.2.2 2000 [some "600"] 600 (by decide) (by decide)

/-- C8: resolveTarget returns the requested name when the host knows it;
otherwise it warns at most once per requested-to-fallback pair and
returns the platform-intrinsic fallback ("dark" or "light") when that is
known; when both are unknown it returns the requested name unchanged. -/
theorem resolveTarget_fallback :
    ∀ (known : List String) (requested : String) (warned : List String) (app : Appearance),
      (RevB.getBuiltinFallbackTheme app = "dark" ∨ RevB.getBuiltinFallbackTheme app = "light") ∧
      (known.contains requested = true →
        RevB.resolveThemeName known requested (RevB.getBuiltinFallbackTheme app) warned =
          (requested, warned, false)) ∧
      (known.contains requested = false →
        known.contains (RevB.getBuiltinFallbackTheme app) = true →
        (RevB.resolveThemeName known requested (RevB.getBuiltinFallbackTheme app) warned).1 =
          RevB.getBuiltinFallbackTheme app) ∧
      (known.contains requested = false →
        known.contains (RevB.getBuiltinFallbackTheme app) = false →
        (RevB.resolveThemeName known requested (RevB.getBuiltinFallbackTheme app) warned).1 =
          requested) ∧
      (RevB.resolveThemeName known requested (RevB.getBuiltinFallbackTheme app)
        (RevB.resolveThemeName known requested (RevB.getBuiltinFallbackTheme app) warned).2.1).2.2
        = false := by
  intro known requested warned app
  refine ⟨?_, ?_, ?_, ?_, ?_⟩
  · cases app with
    | dark => exact Or.inl rfl
    | light => exact Or.inr rfl
  · intro hreq
    simp at hreq
    simp [RevB.resolveThemeName, hreq]
  · intro hreq hfb
    simp at hreq hfb
    simp [RevB.resolveThemeName, hreq, hfb]
  · intro hreq hfb
    simp at hreq hfb
    simp [RevB.resolveThemeName, hreq, hfb]
  · by_cases hreqm : requested ∈ known
    · simp [RevB.resolveThemeName, hreqm]
    · have hkey : ∀ w : List String,
          (requested ++ "=>" ++ RevB.getBuiltinFallbackTheme app) ∈
            (RevB.resolveThemeName known requested (RevB.getBuiltinFallbackTheme app) w).2.1 := by
        intro w
        by_cases hw : (requested ++ "=>" ++ RevB.getBuiltinFallbackTheme app) ∈ w <;>
          by_cases hfb : RevB.getBuiltinFallbackTheme app ∈ known <;>
          simp [RevB.resolveThemeName, hreqm, hw, hfb]
      have hsec : ∀ w : List String,
          (requested ++ "=>" ++ RevB.getBuiltinFallbackTheme app) ∈ w →
          (RevB.resolveThemeName known requested (RevB.getBuiltinFallbackTheme app) w).2.2
            = false := by
        intro w hw
        by_cases hfb : RevB.getBuiltinFallbackTheme app ∈ known <;>
          simp [RevB.resolveThemeName, hreqm, hw, hfb]
      exact hsec _ (hkey warned)

/-- C8 witness: with known themes dark and light, requesting an unknown
name "rose" under dark appearance falls back to "dark", warning only on
the first resolution of the pair. -/
theorem resolveTarget_fallback_witness :
    (RevB.resolveThemeName ["dark", "light"] "rose" (RevB.getBuiltinFallbackTheme .dark) []).1
      = "dark" ∧
    (RevB.resolveThemeName ["dark", "light"] "rose" (RevB.getBuiltinFallbackTheme .dark)
      (RevB.resolveThemeName ["dark", "light"] "rose"
        (RevB.getBuiltinFallbackTheme .dark) []).2.1).2.2 = false ∧
    RevB.resolveThemeName ["light"] "rose" (RevB.getBuiltinFallbackTheme .dark) ["x"] =
      ("rose", ["rose=>dark", "x"], true) := by
  have base := resolveTarget_fallback ["dark", "light"] "rose" [] .dark
  refine ⟨?_, base.2.2.2.2, by decide⟩
  have h := base.2.2.1 (by decide) (by decide)
  rw [h]
  decide

/-- If auto-sync is allowed, it stays allowed after applying the theme
that the configuration maps the detected appearance to: with overrides
the gate ignores the active theme, and without overrides the applied
theme is itself a default name. -/
theorem shouldAutoSync_preserved (h : HostState) (c : Config) (app : Appearance)
    (hg : shouldAutoSync h c = true) :
    shouldAutoSync
      { h with activeTheme := some (if app = .dark then c.darkTheme else c.lightTheme) } c
      = true := by
  by_cases hov : hasThemeOverrides c = true
  · simp [shouldAutoSync, canManageThemes, hov] at hg ⊢
    exact hg
  · have hov' : hasThemeOverrides c = false := by simpa using hov
    have hnames : c.darkTheme = "dark" ∧ c.lightTheme = "light" := by
      simpa [hasThemeOverrides, DEFAULT_CONFIG] using hov'
    have hcan : canManageThemes h = true := by
      by_cases hcan : canManageThemes h = true
      · exact hcan
      · have : canManageThemes h = false := by simpa using hcan
        simp [shouldAutoSync, this] at hg
    have hcan2 : canManageThemes
        { h with activeTheme := some (if app = .dark then c.darkTheme else c.lightTheme) }
        = true := by
      simpa [canManageThemes] using hcan
    have hdefname : isDefaultThemeName
        (some (if app = .dark then c.darkTheme else c.lightTheme)) = true := by
      cases app <;> simp [isDefaultThemeName, DEFAULT_CONFIG, hnames.1, hnames.2]
    simp [shouldAutoSync, hcan2, hov', hdefname]

/-- C9 counterexample: in a session of three failing passes with error
messages e1, e2, e1 on the same target theme, the pair ("dark", "e1") is
warned twice — the claimed once-per-distinct-pair discipline fails. -/
theorem applyWarn_per_pair_counterexample :
    sessionWarnings DEFAULT_CONFIG ⟨⟨true, ["dark", "light"], some "light"⟩, none⟩
        [⟨some .dark, ⟨false, some "e1"⟩⟩, ⟨some .dark, ⟨false, some "e2"⟩⟩,
         ⟨some .dark, ⟨false, some "e1"⟩⟩]
      = [("dark", "e1"), ("dark", "e2"), ("dark", "e1")] ∧
    (sessionWarnings DEFAULT_CONFIG ⟨⟨true, ["dark", "light"], some "light"⟩, none⟩
        [⟨some .dark, ⟨false, some "e1"⟩⟩, ⟨some .dark, ⟨false, some "e2"⟩⟩,
         ⟨some .dark, ⟨false, some "e1"⟩⟩]).count ("dark", "e1") = 2 := by
  constructor <;> decide

/-- C9 amended: a sync pass logs at most one apply-failure warning, and
the second of two identical consecutive passes logs none — repeated
identical failures across poll ticks warn once; the de-duplication is
keyed on the most recent (theme, message) failure, cleared on success,
so a pair can be warned again after an intervening different failure or
a successful apply. -/
theorem applyWarn_dedup_amended :
    ∀ (c : Config) (s : SyncState) (t : TickInput),
      (syncTheme c s t).2.warnings.length ≤ 1 ∧
      (syncTheme c (syncTheme c s t).1 t).2.warnings = [] := by
  intro c s t
  by_cases hg : shouldAutoSync s.host c = true
  · cases hd : t.detection with
    | none => simp [syncTheme, hg, hd]
    | some app =>
      by_cases hact : s.host.activeTheme
          = some (if app = .dark then c.darkTheme else c.lightTheme)
      · simp [syncTheme, hg, hd, hact]
      · by_cases hsucc : t.setResult.success = true
        · have hg2 := shouldAutoSync_preserved s.host c app hg
          simp [syncTheme, hg, hd, hact, hsucc, hg2]
        · have hsucc' : t.setResult.success = false := by simpa using hsucc
          by_cases hkey : some ((if app = .dark then c.darkTheme else c.lightTheme)
                ++ ":" ++ (t.setResult.error.getD "unknown error"))
              = s.lastSetThemeError
          · simp [syncTheme, hg, hd, hact, hsucc', hkey]
          · simp [syncTheme, hg, hd, hact, hsucc', hkey]
  · have hg' : shouldAutoSync s.host c = false := by simpa using hg
    simp [syncTheme, hg']

/-- Rounding the rational zero gives the integer zero. -/
theorem jsRound_zero : jsRound 0 = 0 := by
  rw [jsRound]
  norm_num

/-- The two revisions agree on theme-name fields for every raw value. -/
theorem toThemeName_eq_getD (v : JSValue) (fb : String) :
    toThemeName v fb = (RevB.toNonEmptyString v).getD fb := by
  cases v with
  | str s =>
    simp only [toThemeName, RevB.toNonEmptyString]
    split <;> simp
  | undef => rfl
  | null => rfl
  | num n => rfl
  | bool b => rfl
  | obj => rfl

/-- C10 counterexample: for the raw override object with pollMs 0, the
first revision's merge clamps to 500 while the second falls back to the
default 2000 — the merges disagree. -/
theorem mergeRevisions_counterexample :
    loadConfigMerge ⟨.undef, .undef, .num (.finite 0)⟩ ≠
      RevB.mergeConfig DEFAULT_CONFIG (some ⟨.undef, .undef, .num (.finite 0)⟩) ∧
    (loadConfigMerge ⟨.undef, .undef, .num (.finite 0)⟩).pollMs = 500 ∧
    (RevB.mergeConfig DEFAULT_CONFIG (some ⟨.undef, .undef, .num (.finite 0)⟩)).pollMs
      = 2000 := by
  have hA : (loadConfigMerge ⟨.undef, .undef, .num (.finite 0)⟩).pollMs = 500 := by
    simp only [loadConfigMerge, toPollMs]
    rw [jsRound_zero]
    decide
  have hB : (RevB.mergeConfig DEFAULT_CONFIG
      (some ⟨.undef, .undef, .num (.finite 0)⟩)).pollMs = 2000 := by
    simp only [RevB.mergeConfig, RevB.toPositiveInteger]
    rw [jsRound_zero]
    decide
  refine ⟨?_, hA, hB⟩
  intro h
  rw [congrArg Config.pollMs h, hB] at hA
  exact absurd hA (by decide)

/-- C10 amended: the two revisions' merges agree on darkTheme and
lightTheme for every raw object, and on pollMs whenever the raw pollMs
is not a finite number or rounds to a positive integer; when it is a
finite number rounding to zero or below, the first revision yields
MIN_POLL_MS while the second keeps the default. -/
theorem mergeRevisions_agree_amended :
    ∀ raw : RawConfig,
      (loadConfigMerge raw).darkTheme = (RevB.mergeConfig DEFAULT_CONFIG (some raw)).darkTheme ∧
      (loadConfigMerge raw).lightTheme
        = (RevB.mergeConfig DEFAULT_CONFIG (some raw)).lightTheme ∧
      (∀ x : ℚ, raw.pollMs = .num (.finite x) → 0 < jsRound x →
        (loadConfigMerge raw).pollMs = (RevB.mergeConfig DEFAULT_CONFIG (some raw)).pollMs) ∧
      (∀ x : ℚ, raw.pollMs = .num (.finite x) → jsRound x ≤ 0 →
        (loadConfigMerge raw).pollMs = MIN_POLL_MS ∧
        (RevB.mergeConfig DEFAULT_CONFIG (some raw)).pollMs = DEFAULT_CONFIG.pollMs) ∧
      ((∀ x : ℚ, raw.pollMs ≠ .num (.finite x)) →
        (loadConfigMerge raw).pollMs = (RevB.mergeConfig DEFAULT_CONFIG (some raw)).pollMs) := by
  intro raw
  refine ⟨?_, ?_, ?_, ?_, ?_⟩
  · simp [loadConfigMerge, RevB.mergeConfig, toThemeName_eq_getD]
  · simp [loadConfigMerge, RevB.mergeConfig, toThemeName_eq_getD]
  · intro x hx hpos
    simp only [loadConfigMerge, RevB.mergeConfig, toPollMs, RevB.toPositiveInteger, hx,
      if_pos hpos]
    exact max_comm _ _
  · intro x hx hnonpos
    have hnot : ¬ jsRound x > 0 := by omega
    constructor
    · simp only [loadConfigMerge, toPollMs, hx]
      exact max_eq_left (le_trans hnonpos (by decide))
    · simp only [RevB.mergeConfig, RevB.toPositiveInteger, hx, if_neg hnot]
  · intro hno
    cases hv : raw.pollMs with
    | num n =>
      cases n with
      | finite x => exact absurd hv (hno x)
      | nan => simp [loadConfigMerge, RevB.mergeConfig, toPollMs, RevB.toPositiveInteger, hv,
          DEFAULT_CONFIG]
      | posInf => simp [loadConfigMerge, RevB.mergeConfig, toPollMs, RevB.toPositiveInteger, hv,
          DEFAULT_CONFIG]
      | negInf => simp [loadConfigMerge, RevB.mergeConfig, toPollMs, RevB.toPositiveInteger, hv,
          DEFAULT_CONFIG]
    | undef => simp [loadConfigMerge, RevB.mergeConfig, toPollMs, RevB.toPositiveInteger, hv,
        DEFAULT_CONFIG]
    | null => simp [loadConfigMerge, RevB.mergeConfig, toPollMs, RevB.toPositiveInteger, hv,
        DEFAULT_CONFIG]
    | str s => simp [loadConfigMerge, RevB.mergeConfig, toPollMs, RevB.toPositiveInteger, hv,
        DEFAULT_CONFIG]
    | bool b => simp [loadConfigMerge, RevB.mergeConfig, toPollMs, RevB.toPositiveInteger, hv,
        DEFAULT_CONFIG]
    | obj => simp [loadConfigMerge, RevB.mergeConfig, toPollMs, RevB.toPositiveInteger, hv,
        DEFAULT_CONFIG]

/-- C10 amended witness: for a raw object with a whitespace-padded dark
theme name and no pollMs, both merges produce the same configuration. -/
theorem mergeRevisions_agree_amended_witness :
    (loadConfigMerge ⟨.str " rose ", .undef, .undef⟩).darkTheme
      = (RevB.mergeConfig DEFAULT_CONFIG (some ⟨.str " rose ", .undef, .undef⟩)).darkTheme ∧
    (loadConfigMerge ⟨.str " rose ", .undef, .undef⟩).pollMs
      = (RevB.mergeConfig DEFAULT_CONFIG (some ⟨.str " rose ", .undef, .undef⟩)).pollMs ∧
    (loadConfigMerge ⟨.str " rose ", .undef, .undef⟩).darkTheme = "rose" := by
  have base := mergeRevisions_agree_amended ⟨.str " rose ", .undef, .undef⟩
  exact ⟨base.1, base.2.2.2.2 (fun x h => JSValue.noConfusion h), by decide⟩
